import Mathlib

/-! Verification of the price-tracking core of the GameBot repository.
The embedding covers SteamParser.processPrices and priceStringToNumber
(src/services/parsers/SteamParser.ts), GameService.updatePrice
(src/services/GameService.ts) and the per-game body of
NotificationService.checkPricesAndNotify (src/services/NotificationService.ts).
JavaScript numbers are modelled as rationals, with an Option where NaN can
occur; timestamps as naturals; a thrown exception as Except or Option. -/

namespace GameBot

/-- The characters kept by the replace of the regex matching anything that is
not a digit, a dot or a comma, in priceStringToNumber. -/
def keepPriceChar (c : Char) : Bool :=
  c.isDigit || c = '.' || c = ','

/-- JavaScript String.replace with a plain string pattern: only the first
comma is replaced by a dot. -/
def replaceFirstComma : List Char → List Char
  | [] => []
  | c :: cs => if c = ',' then '.' :: cs else c :: replaceFirstComma cs

/-- Numeric value of a list of decimal digits, most significant first. -/
def natOfDigits (cs : List Char) : ℕ :=
  cs.foldl (fun a c => 10 * a + (c.toNat - 48)) 0

/-- JavaScript parseFloat restricted to strings over digits, dots and commas,
which is all priceStringToNumber can feed it: the longest prefix of the form
digits, digits-dot-digits or dot-digits is the value, and none models NaN,
returned when no such prefix exists. A comma is an invalid character and
stops the scan. -/
def parseFloatJS (cs : List Char) : Option ℚ :=
  let ip := cs.takeWhile Char.isDigit
  let rest := cs.dropWhile Char.isDigit
  match rest with
  | '.' :: rest2 =>
    let fp := rest2.takeWhile Char.isDigit
    if ip.isEmpty && fp.isEmpty then none
    else some ((natOfDigits ip : ℚ) + (natOfDigits fp : ℚ) / (10 : ℚ) ^ fp.length)
  | _ => if ip.isEmpty then none else some (natOfDigits ip)

/-- SteamParser.priceStringToNumber: strip every character that is not a
digit, dot or comma, replace the first comma by a dot, and parseFloat the
result; none models the NaN result. -/
def priceStringToNumber (priceString : String) : Option ℚ :=
  parseFloatJS (replaceFirstComma (priceString.data.filter keepPriceChar))

/-- The GamePrice record of src/types/index.ts: basePrice is a number,
discount an optional number; a number may be NaN, modelled as Option with
none for NaN. -/
structure GamePrice where
  basePrice : Option ℚ
  discount : Option (Option ℚ)
deriving DecidableEq

/-- The markup fragments SteamParser.processPrices reads: the discount
container with the trimmed texts of its original and final price elements
when the container is present, else the trimmed text of the plain purchase
price element, which is the empty string when that element is absent. -/
structure PageMarkup where
  discountBlock : Option (String × String)
  purchasePriceText : String

/-- SteamParser.processPrices: when a discount container is present, parse
both the original and the final price text; otherwise parse the single
purchase price text with no discount recorded. No branch checks for a NaN or
otherwise malformed value and no branch throws. -/
def processPrices (page : PageMarkup) : GamePrice :=
  match page.discountBlock with
  | some (originalPrice, discountPrice) =>
    { basePrice := priceStringToNumber originalPrice
      discount := some (priceStringToNumber discountPrice) }
  | none =>
    { basePrice := priceStringToNumber page.purchasePriceText
      discount := none }

/-- An observation from a fetch and extraction that succeeded with actual
numbers, as the refresh claims assume: a GamePrice whose fields carry real
values. -/
structure PriceObservation where
  basePrice : ℚ
  discount : Option ℚ
deriving DecidableEq

/-- The effective price of an observation: the discount price if present,
else the base price, as in the expression discount-or-else-basePrice of
GameService.updatePrice. -/
def effectivePrice (priceInfo : PriceObservation) : ℚ :=
  priceInfo.discount.getD priceInfo.basePrice

/-- The persisted Game record: the prisma model fields the services read and
write, with the category and tag names it relates to. -/
structure Game where
  id : ℕ
  title : String
  url : String
  basePrice : ℚ
  currentPrice : ℚ
  onSale : Bool
  lastChecked : Option ℕ
  platform : String
  categories : List String
  tags : List String
deriving DecidableEq

/-- GameService.updatePrice, success path: persist currentPrice as the
discount price if present else the base price, basePrice as the observed
base price, and lastChecked as the current time. No other field appears in
the update data. -/
def updatePrice (now : ℕ) (priceInfo : PriceObservation) (game : Game) : Game :=
  { game with
    currentPrice := priceInfo.discount.getD priceInfo.basePrice
    basePrice := priceInfo.basePrice
    lastChecked := some now }

/-- A NotificationSettings row: chatId, nullable threadId, isGroup. -/
structure NotificationSetting where
  chatId : Int
  threadId : Option Int
  isGroup : Bool
deriving DecidableEq

/-- One sendMessage dispatch for one setting: when the setting isGroup and
its threadId is truthy (a BigInt is truthy exactly when nonzero), send into
the thread, else send flat. The transport api may throw, modelled as
Except.error. -/
def sendToSetting (api : Int → Option Int → Except Unit Unit)
    (setting : NotificationSetting) : Except Unit Unit :=
  match setting.isGroup, setting.threadId with
  | true, some threadId =>
    if threadId ≠ 0 then api setting.chatId (some threadId)
    else api setting.chatId none
  | _, _ => api setting.chatId none

/-- The recorded outcome of one delivery attempt: the loop body catches a
throwing send and logs the failure, so false stands for a logged failure and
true for a delivered message. -/
def deliveryOutcome (api : Int → Option Int → Except Unit Unit)
    (setting : NotificationSetting) : Bool :=
  match sendToSetting api setting with
  | .ok _ => true
  | .error _ => false

/-- The delivery loop over the notification settings: every destination is
attempted in order, each failure caught inside the loop body, and the list
records each per-destination outcome. -/
def notifyAll (api : Int → Option Int → Except Unit Unit) :
    List NotificationSetting → List Bool
  | [] => []
  | setting :: rest => deliveryOutcome api setting :: notifyAll api rest

/-- The data of the price-drop message checkPricesAndNotify builds, with the
per-destination delivery log of the fan-out loop. -/
structure DropNotification where
  title : String
  discountPercent : ℤ
  oldPrice : ℚ
  newPrice : ℚ
  url : String
  deliveries : List Bool
deriving DecidableEq

/-- One iteration of NotificationService.checkPricesAndNotify for one game.
fetched is the outcome of the inner updatePrice call: none means it threw,
the surrounding try/catch leaves the stored record untouched and nothing is
sent. On success the record is persisted by updatePrice first; then the
guard on a falsy old or new current price (a number is falsy exactly when it
is 0) skips the reconciliation; a strict drop below the old current price
while not on sale computes the rounded discount percentage, sends to every
setting and sets onSale; a price at or above the old current price while on
sale clears onSale silently. -/
def checkGame (api : Int → Option Int → Except Unit Unit)
    (settings : List NotificationSetting) (now : ℕ)
    (fetched : Option PriceObservation) (game : Game) :
    Game × Option DropNotification :=
  match fetched with
  | none => (game, none)
  | some priceInfo =>
    let oldPrice := game.currentPrice
    let updatedGame := updatePrice now priceInfo game
    if oldPrice = 0 ∨ updatedGame.currentPrice = 0 then
      (updatedGame, none)
    else if updatedGame.currentPrice < oldPrice ∧ updatedGame.onSale = false then
      ({ updatedGame with onSale := true },
        some
          { title := updatedGame.title
            discountPercent := round ((1 - updatedGame.currentPrice / oldPrice) * 100)
            oldPrice := oldPrice
            newPrice := updatedGame.currentPrice
            url := updatedGame.url
            deliveries := notifyAll api settings })
    else if oldPrice ≤ updatedGame.currentPrice ∧ updatedGame.onSale = true then
      ({ updatedGame with onSale := false }, none)
    else
      (updatedGame, none)

/-- The sweep of checkPricesAndNotify over the loaded game list: each game
runs in its own try/catch iteration, with obsOf giving the fetch and
extraction outcome for a game id. -/
def sweep (api : Int → Option Int → Except Unit Unit)
    (settings : List NotificationSetting) (now : ℕ)
    (obsOf : ℕ → Option PriceObservation) (games : List Game) :
    List (Game × Option DropNotification) :=
  games.map fun game => checkGame api settings now (obsOf game.id) game

/-- A transport that always delivers. -/
def apiOk : Int → Option Int → Except Unit Unit := fun _ _ => .ok ()

/-- A tracked game at base price 100, with a chosen current price and onSale
flag, used in the concrete scenarios. -/
def sampleGame (currentPrice : ℚ) (onSale : Bool) : Game :=
  { id := 1, title := "Game", url := "https://example", basePrice := 100
    currentPrice := currentPrice, onSale := onSale, lastChecked := some 0
    platform := "steam", categories := ["coop"], tags := ["action"] }

/-- First refresh of the recovery scenario: base 100, no discount. -/
def recoveryStep1 : Game × Option DropNotification :=
  checkGame apiOk [] 1 (some { basePrice := 100, discount := none })
    (sampleGame 100 false)

/-- Second refresh of the recovery scenario: base 100, discount 80. -/
def recoveryStep2 : Game × Option DropNotification :=
  checkGame apiOk [] 2 (some { basePrice := 100, discount := some 80 })
    recoveryStep1.1

/-- Third refresh of the recovery scenario: back to base 100, no discount. -/
def recoveryStep3 : Game × Option DropNotification :=
  checkGame apiOk [] 3 (some { basePrice := 100, discount := none })
    recoveryStep2.1

theorem checkGame_fst_currentPrice (api : Int → Option Int → Except Unit Unit)
    (settings : List NotificationSetting) (now : ℕ)
    (priceInfo : PriceObservation) (game : Game) :
    (checkGame api settings now (some priceInfo) game).1.currentPrice =
      effectivePrice priceInfo := by
  simp only [checkGame, updatePrice, effectivePrice]
  split_ifs <;> rfl

theorem checkGame_no_event_of_not_lt (api : Int → Option Int → Except Unit Unit)
    (settings : List NotificationSetting) (now : ℕ)
    (priceInfo : PriceObservation) (game : Game)
    (h : ¬ effectivePrice priceInfo < game.currentPrice) :
    (checkGame api settings now (some priceInfo) game).2 = none := by
  simp only [checkGame, updatePrice, effectivePrice] at *
  split_ifs with h1 h2 h3 <;> first
    | rfl
    | exact absurd h2.1 h

/-- C1 counterexample: a refresh that observes the effective price dropping
further (100 to 70 effective over a stored 80) while the stored onSale flag
is already true emits no event, and a drop to an effective price of 0 from a
not-on-sale state emits no event either, against the stated rule. -/
theorem refresh_no_event_on_further_drop_or_drop_to_zero :
  (checkGame apiOk [] 5 (some { basePrice := 100, discount := some 70 })
      (sampleGame 80 true)).2 = none ∧
  (checkGame apiOk [] 5 (some { basePrice := 100, discount := some 0 })
      (sampleGame 100 false)).2 = none := by
  constructor <;> decide

/-- C1 (corrected): a refresh emits a price-drop notification event exactly
when the stored effective price and the newly observed effective price are
both nonzero, the new effective price is strictly below the stored one, and
the stored onSale flag is false; while onSale is already true a further drop
emits nothing. -/
theorem refresh_event_iff_strict_drop_and_not_onSale
    (api : Int → Option Int → Except Unit Unit)
    (settings : List NotificationSetting) (now : ℕ)
    (priceInfo : PriceObservation) (game : Game) :
    ((checkGame api settings now (some priceInfo) game).2).isSome = true ↔
      game.currentPrice ≠ 0 ∧ effectivePrice priceInfo ≠ 0 ∧
        effectivePrice priceInfo < game.currentPrice ∧ game.onSale = false := by
  simp only [checkGame, updatePrice, effectivePrice]
  split_ifs with h1 h2 h3 <;> (simp_all [not_or]; try tauto)

/-- C2 (code_bug): on a page without a recognizable price text the extractor
returns an observation whose base price is NaN instead of failing, and on a
discount layout whose sub-values are malformed it returns NaN values for
both, instead of the ExtractionError the specification requires; nothing in
processPrices rejects a NaN or throws. -/
theorem processPrices_returns_nan_without_error :
  processPrices { discountBlock := none, purchasePriceText := "" } =
      { basePrice := none, discount := none } ∧
  processPrices { discountBlock := some ("", "x"), purchasePriceText := "" } =
      { basePrice := none, discount := some none } := by
  exact ⟨rfl, rfl⟩

/-- C3 counterexample: a refresh observing base price 100 with discount price
80 present leaves the onSale flag of the persisted record false, where the
claim requires onSale to equal the presence of the discount. -/
theorem updatePrice_keeps_onSale_despite_discount :
  (updatePrice 5 { basePrice := 100, discount := some 80 }
      (sampleGame 100 false)).onSale = false ∧
  ({ basePrice := 100, discount := some 80 } : PriceObservation).discount.isSome
      = true := by
  exact ⟨rfl, rfl⟩

/-- C3 (corrected): for every refresh whose fetch and extraction succeed with
observation obs, updatePrice persists currentPrice as the discount price if
present else the base price, basePrice as the observed base price and
lastChecked as the time of this refresh, but it leaves onSale unchanged: the
flag is not set from the presence of a discount. -/
theorem updatePrice_persists_prices_and_keeps_onSale
    (now : ℕ) (priceInfo : PriceObservation) (game : Game) :
    (updatePrice now priceInfo game).currentPrice
        = priceInfo.discount.getD priceInfo.basePrice ∧
    (updatePrice now priceInfo game).basePrice = priceInfo.basePrice ∧
    (updatePrice now priceInfo game).lastChecked = some now ∧
    (updatePrice now priceInfo game).onSale = game.onSale := by
  exact ⟨rfl, rfl, rfl, rfl⟩

/-- C4 (confirmed): the sweep maps every game to the outcome of its own
refresh iteration, so each position of the result depends only on the game
at that position and its own fetch outcome; at a position whose fetch or
extraction fails the stored record is returned unchanged with no event,
while every other position still gets its full refresh. -/
theorem sweep_isolates_per_game_failures
    (api : Int → Option Int → Except Unit Unit)
    (settings : List NotificationSetting) (now : ℕ)
    (obsOf : ℕ → Option PriceObservation) (games : List Game) (i : ℕ) :
    (sweep api settings now obsOf games).length = games.length ∧
    (sweep api settings now obsOf games).get? i =
      (games.get? i).map (fun g => checkGame api settings now (obsOf g.id) g) ∧
    ∀ g : Game, games.get? i = some g → obsOf g.id = none →
      (sweep api settings now obsOf games).get? i = some (g, none) := by
  refine ⟨by simp [sweep], by simp [sweep], ?_⟩
  intro g hg hobs
  simp only [sweep, List.get?_eq_getElem?, List.getElem?_map] at hg ⊢
  simp only [hg, Option.map_some']
  rw [hobs]
  rfl

/-- C5 counterexample: starting from a stored current price of 100 while not
on sale, a refresh observing base price 200 with discount price 150 ends
with onSale still false although the persisted current price 150 is strictly
below the persisted base price 200, refuting the stated iff invariant. -/
theorem onSale_not_iff_current_lt_base :
  ((checkGame apiOk [] 5 (some { basePrice := 200, discount := some 150 })
      (sampleGame 100 false)).1.onSale = false) ∧
  (checkGame apiOk [] 5 (some { basePrice := 200, discount := some 150 })
      (sampleGame 100 false)).1.currentPrice <
    (checkGame apiOk [] 5 (some { basePrice := 200, discount := some 150 })
      (sampleGame 100 false)).1.basePrice := by
  exact ⟨by decide, by decide⟩

/-- C5 (corrected): after a successful refresh the persisted current price
equals the persisted base price whenever no discount was observed; the
onSale flag is maintained against the previously stored effective price, not
against the base price: after a refresh it is true only if it was already
true or the new effective price strictly dropped below the previously stored
one, and it is not equivalent to currentPrice being below basePrice. -/
theorem refresh_price_fields_vs_onSale
    (api : Int → Option Int → Except Unit Unit)
    (settings : List NotificationSetting) (now : ℕ)
    (priceInfo : PriceObservation) (game : Game) :
    (priceInfo.discount = none →
      (checkGame api settings now (some priceInfo) game).1.currentPrice =
        (checkGame api settings now (some priceInfo) game).1.basePrice) ∧
    ((checkGame api settings now (some priceInfo) game).1.onSale = true →
      game.onSale = true ∨
        (checkGame api settings now (some priceInfo) game).1.currentPrice
          < game.currentPrice) := by
  simp only [checkGame, updatePrice]
  split_ifs with h1 h2 h3 <;> constructor <;> intro h <;> simp_all

/-- C6 (confirmed): starting at base price 100 with no discount, the refresh
sequence observing base 100 with no discount, then base 100 with discount
80, then base 100 with no discount, emits exactly one price-drop event, on
the second refresh, and afterwards the stored record has onSale false and
currentPrice 100: the return to the base price clears onSale without any
notification. -/
theorem recovery_sequence_single_event :
  recoveryStep1.2 = none ∧ recoveryStep2.2.isSome = true ∧
  recoveryStep3.2 = none ∧ recoveryStep3.1.onSale = false ∧
  recoveryStep3.1.currentPrice = 100 := by
  refine ⟨by decide, by decide, by decide, by decide, by decide⟩

/-- C7 (confirmed): the fan-out loop attempts delivery to every destination:
around any one destination the recorded outcomes are exactly those of the
left part, the own outcome of that destination (false when its send throws,
caught and logged), and the outcomes of the right part, so one failure never
short-circuits the rest; the number of recorded outcomes equals the number
of destinations; and the persisted game record never depends on the
transport, so delivery failures cannot affect the stored price state. -/
theorem fanout_attempts_all_and_preserves_state
    (api api2 : Int → Option Int → Except Unit Unit)
    (left : List NotificationSetting) (setting : NotificationSetting)
    (right : List NotificationSetting) (settings : List NotificationSetting)
    (now : ℕ) (fetched : Option PriceObservation) (game : Game) :
    notifyAll api (left ++ setting :: right) =
        notifyAll api left ++ deliveryOutcome api setting :: notifyAll api right ∧
    (notifyAll api settings).length = settings.length ∧
    (checkGame api settings now fetched game).1 =
        (checkGame api2 settings now fetched game).1 := by
  refine ⟨?_, ?_, ?_⟩
  · induction left with
    | nil => rfl
    | cons s l ih => simp only [List.cons_append, notifyAll, List.append_eq, ih]
  · induction settings with
    | nil => rfl
    | cons s l ih => simp only [notifyAll, List.length_cons, ih]
  · cases fetched with
    | none => rfl
    | some priceInfo =>
      simp only [checkGame]
      split_ifs <;> rfl

/-- C8 (confirmed): refreshing twice in succession while the observed prices
are unchanged emits no event on the second refresh, and once onSale is true
a refresh whose observed effective price equals the stored current price
emits no event. -/
theorem repeat_refresh_emits_no_event
    (api : Int → Option Int → Except Unit Unit)
    (settings : List NotificationSetting) (now1 now2 : ℕ)
    (priceInfo : PriceObservation) (game : Game) :
    (checkGame api settings now2 (some priceInfo)
        (checkGame api settings now1 (some priceInfo) game).1).2 = none ∧
    ∀ g : Game, g.onSale = true → effectivePrice priceInfo = g.currentPrice →
      (checkGame api settings now2 (some priceInfo) g).2 = none := by
  constructor
  · apply checkGame_no_event_of_not_lt
    rw [checkGame_fst_currentPrice]
    exact lt_irrefl _
  · intro g _ heq
    apply checkGame_no_event_of_not_lt
    rw [heq]
    exact lt_irrefl _

/-- C9 (confirmed): updatePrice modifies only the currentPrice, basePrice
and lastChecked fields of the stored record; id, title, url, platform,
categories, tags and in particular the onSale flag are unchanged, and the
record the notification sweep persists differs from the updatePrice result
in at most the onSale flag, so onSale is mutated only by the sweep. -/
theorem updatePrice_frame
    (api : Int → Option Int → Except Unit Unit)
    (settings : List NotificationSetting) (now : ℕ)
    (priceInfo : PriceObservation) (game : Game) :
    (updatePrice now priceInfo game).id = game.id ∧
    (updatePrice now priceInfo game).title = game.title ∧
    (updatePrice now priceInfo game).url = game.url ∧
    (updatePrice now priceInfo game).platform = game.platform ∧
    (updatePrice now priceInfo game).categories = game.categories ∧
    (updatePrice now priceInfo game).tags = game.tags ∧
    (updatePrice now priceInfo game).onSale = game.onSale ∧
    (checkGame api settings now (some priceInfo) game).1 =
      { updatePrice now priceInfo game with
          onSale := (checkGame api settings now (some priceInfo) game).1.onSale } := by
  refine ⟨rfl, rfl, rfl, rfl, rfl, rfl, rfl, ?_⟩
  simp only [checkGame]
  split_ifs <;> rfl

/-- C10 (confirmed): when the previously stored effective price is 0 or the
newly observed effective price is 0, the sweep skips the reconciliation for
that game after persisting the price update: the result is exactly the
updatePrice record, whose onSale flag is untouched, and no notification is
produced, which also keeps the discount-percentage division by the old
price away from zero. -/
theorem zero_price_skips_reconciliation
    (api : Int → Option Int → Except Unit Unit)
    (settings : List NotificationSetting) (now : ℕ)
    (priceInfo : PriceObservation) (game : Game)
    (h : game.currentPrice = 0 ∨ effectivePrice priceInfo = 0) :
    checkGame api settings now (some priceInfo) game =
      (updatePrice now priceInfo game, none) := by
  simp only [checkGame]
  rw [if_pos]
  rcases h with h | h
  · exact Or.inl h
  · exact Or.inr (by simpa [updatePrice, effectivePrice] using h)

/-- C10 witness: a game stored at current price 100 refreshed by an
observation of base price 100 with discount price 0 is persisted by
updatePrice and skipped by the reconciliation with no notification. -/
theorem zero_price_skips_reconciliation_witness :
  checkGame apiOk [] 7 (some { basePrice := 100, discount := some 0 })
      (sampleGame 100 false) =
    (updatePrice 7 { basePrice := 100, discount := some 0 }
      (sampleGame 100 false), none) :=
  zero_price_skips_reconciliation apiOk [] 7
    { basePrice := 100, discount := some 0 } (sampleGame 100 false)
    (Or.inr (by decide))
